import Mathlib

/-!
# Wishlist controller (`src/wishlist.controller.js`, `src/wishlist.model.js`)

A shallow embedding of the wishlist aggregate of the Booking repository:
the Mongoose schemas of `wishlist.model.js` become Lean structures, the
`wishlists` collection becomes a list of documents that is passed explicitly,
and every exported handler of `wishlist.controller.js` becomes a function
from the collection (and the request) to the new collection and the response.

Conventions of the embedding

* Handlers run one at a time (one request is served to completion before the
  next one starts); `await` is sequential composition.
* `req.user.id` is set by the authentication middleware (not part of the
  controller) and denotes an existing user: it is taken as an `ObjectId`.
* `req.params` and the body fields `refId`, `type` are strings; the body field
  `name` may be missing.
* A document's own `_id`, `__v` and the `timestamps` fields are never read by
  the controller and are left out of `Wishlist`; a document is addressed by
  its position in the collection (the first document of the user, which is the
  one `findOne` loads and `save` writes back).
* The `_id` given to a new folder is generated by the driver; it is an explicit
  argument (`fresh`) of `createFolder`.
-/

namespace Booking

/-! ## ObjectId -/

/-- A BSON ObjectId: 12 bytes, kept as its 24 hexadecimal digits. -/
structure ObjectId where
  digits : List (Fin 16)
  size : digits.length = 24
deriving DecidableEq

/-- The character `ObjectId.prototype.toHexString` prints for one digit
(lower case). -/
def hexChar (d : Fin 16) : Char :=
  match d.val with
  | 0 => '0' | 1 => '1' | 2 => '2' | 3 => '3'
  | 4 => '4' | 5 => '5' | 6 => '6' | 7 => '7'
  | 8 => '8' | 9 => '9' | 10 => 'a' | 11 => 'b'
  | 12 => 'c' | 13 => 'd' | 14 => 'e' | _ => 'f'

/-- The value of one hexadecimal digit; the driver accepts both cases
(`/^[0-9a-fA-F]{24}$/`). -/
def hexVal (c : Char) : Option (Fin 16) :=
  match c with
  | '0' => some 0 | '1' => some 1 | '2' => some 2 | '3' => some 3
  | '4' => some 4 | '5' => some 5 | '6' => some 6 | '7' => some 7
  | '8' => some 8 | '9' => some 9
  | 'a' => some 10 | 'b' => some 11 | 'c' => some 12
  | 'd' => some 13 | 'e' => some 14 | 'f' => some 15
  | 'A' => some 10 | 'B' => some 11 | 'C' => some 12
  | 'D' => some 13 | 'E' => some 14 | 'F' => some 15
  | _ => none

/-- Reads a run of hexadecimal digits; `none` when a character is not one. -/
def parseHex : List Char → Option (List (Fin 16))
  | [] => some []
  | c :: cs =>
    match hexVal c, parseHex cs with
    | some d, some ds => some (d :: ds)
    | _, _ => none

/-- The string form of an id (`_id.toString()`, `refId.toString()`): 24 lower
case hexadecimal digits. -/
def toHexString (id : ObjectId) : String :=
  String.mk (id.digits.map hexChar)

/-- Mongoose's cast of a request string to an ObjectId: a string of 24
hexadecimal digits (either case) is read as the id, anything else is not an
id (`none` stands for the `CastError` / `BSONError` the cast throws). -/
def castObjectId (s : String) : Option ObjectId :=
  match parseHex s.data with
  | some ds => if h : ds.length = 24 then some ⟨ds, h⟩ else none
  | none => none

/-! ## Schemas (`wishlist.model.js`) -/

/-- A `WishlistItemSchema` sub-document (`_id: false`). -/
structure Item where
  refId : ObjectId
  type : String
deriving DecidableEq

/-- A `FolderSchema` sub-document; `name` is `none` when the field is
missing. -/
structure Folder where
  _id : ObjectId
  name : Option String
  items : List Item
deriving DecidableEq

/-- A `WishlistSchema` document. -/
structure Wishlist where
  userId : ObjectId
  folders : List Folder
deriving DecidableEq

/-- The `wishlists` collection. -/
abbrev Store := List Wishlist

/-- The `listings` and `experiences` collections, as the ids of their
documents. -/
structure Catalog where
  listings : List ObjectId
  experiences : List ObjectId

/-- An error thrown by Mongoose inside a handler. -/
inductive MongooseError where
  | castError (value : String)
  | validationError
deriving DecidableEq

/-- What a handler sends back.
`json w` is `res.json(wishlist)` (status 200), `status c e` is
`res.status(c).json({ error: e })` and `caught err` is the `catch` branch,
`res.status(500).json({ error: err.message })`. -/
inductive Response where
  | json (wishlist : Wishlist)
  | status (code : Nat) (error : String)
  | caught (err : MongooseError)
deriving DecidableEq

/-- The HTTP status of a response. -/
def Response.code : Response → Nat
  | .json _ => 200
  | .status c _ => c
  | .caught _ => 500

/-- The `enum` of `WishlistItemSchema.type`. -/
def typeEnum : List String := ["listing"]

/-- The `required` validator of a `String` path: the value is present and
not empty. -/
def checkRequired : Option String → Bool
  | none => false
  | some s => s != ""

/-- Validation of an item: `type` is a member of the enum (`refId` is
present by construction). -/
def validateItem (i : Item) : Bool :=
  typeEnum.contains i.type

/-- Validation of a folder: `name` is required, every item is valid. -/
def validateFolder (f : Folder) : Bool :=
  checkRequired f.name && f.items.all validateItem

/-- Schema validation run by `save()` (`userId` is present by construction).
The whole document is checked; on a document whose stored part conforms to
the schema this is the same as checking the modified paths only. -/
def validate (w : Wishlist) : Bool :=
  w.folders.all validateFolder

/-! ## Collection operations -/

/-- Mongoose `Wishlist.findOne({ userId })`: the first document of the
user. -/
def findOne : Store → ObjectId → Option Wishlist
  | [], _ => none
  | w :: ws, userId => if w.userId = userId then some w else findOne ws userId

/-- Mongoose `Wishlist.create(doc)`: the document is inserted. -/
def create (db : Store) (doc : Wishlist) : Store × Wishlist :=
  (db ++ [doc], doc)

/-- Writes a loaded document back: the first document of its user is
replaced. -/
def writeBack : Store → Wishlist → Store
  | [], _ => []
  | d :: ds, w => if d.userId = w.userId then w :: ds else d :: writeBack ds w

/-- Mongoose `wishlist.save()`: validation, then the write; a failed
validation throws and nothing is written. -/
def save (db : Store) (w : Wishlist) : Except MongooseError Store :=
  if validate w then .ok (writeBack db w) else .error .validationError

/-- Mongoose `Model.findById(id)` on a collection: the id is cast (a string
that is not an id throws `CastError`), the result is the document or null. -/
def findById (coll : List ObjectId) (id : String) :
    Except MongooseError (Option ObjectId) :=
  match castObjectId id with
  | none => .error (.castError id)
  | some oid => .ok (if oid ∈ coll then some oid else none)

/-- Mongoose `folders.id(id)` on a document array: the argument is cast and
its string form is compared with each `_id`; an argument that is not an id
matches nothing. The first match is returned. -/
def DocumentArray.id (folders : List Folder) (id : String) : Option Folder :=
  match castObjectId id with
  | none => none
  | some casted => folders.find? (fun f => toHexString casted == toHexString f._id)

/-- The folders after the sub-document returned by `folders.id(..)` (the
first folder with that `_id`) had its `items` assigned: sub-documents are
mutated in place in the source. -/
def setItems : List Folder → ObjectId → List Item → List Folder
  | [], _, _ => []
  | f :: fs, fid, items =>
    if toHexString fid == toHexString f._id then { f with items := items } :: fs
    else f :: setItems fs fid items

/-! ## Handlers (`wishlist.controller.js`) -/

/-- Source `ensureWishlist(userId)`. -/
def ensureWishlist (db : Store) (userId : ObjectId) : Store × Wishlist :=
  match findOne db userId with
  | some wishlist => (db, wishlist)
  | none => create db { userId := userId, folders := [] }

/-- Source `exports.getWishlist`. -/
def getWishlist (db : Store) (userId : ObjectId) : Store × Response :=
  let (db1, wishlist) := ensureWishlist db userId
  (db1, .json wishlist)

/-- Source `exports.createFolder`; `fresh` is the `_id` generated for the
pushed folder. -/
def createFolder (db : Store) (userId : ObjectId) (name : Option String)
    (fresh : ObjectId) : Store × Response :=
  let (db1, wishlist) := ensureWishlist db userId
  let wishlist1 : Wishlist :=
    { wishlist with
      folders := wishlist.folders ++ [{ _id := fresh, name := name, items := [] }] }
  match save db1 wishlist1 with
  | .error err => (db1, .caught err)
  | .ok db2 => (db2, .json wishlist1)

/-- Lines 61-67 of `addItemToFolder`: the catalog lookup of the item's
type (`Listing.findById` for "listing", `Experience.findById` otherwise). -/
def catalogLookup (cat : Catalog) (refId type : String) :
    Except MongooseError (Option ObjectId) :=
  if type = "listing" then findById cat.listings refId
  else findById cat.experiences refId

/-- Source `exports.addItemToFolder`. -/
def addItemToFolder (db : Store) (cat : Catalog) (userId : ObjectId)
    (folderId refId type : String) : Store × Response :=
  if !(["listing", "experience"].contains type) then
    (db, .status 400 "Invalid item type")
  else
    match catalogLookup cat refId type with
    | .error err => (db, .caught err)
    | .ok none => (db, .status 404 "Item not found")
    | .ok (some _) =>
      let (db1, wishlist) := ensureWishlist db userId
      match DocumentArray.id wishlist.folders folderId with
      | none => (db1, .status 404 "Folder not found")
      | some folder =>
        if folder.items.any
            (fun item => toHexString item.refId == refId && item.type == type) then
          (db1, .status 400 "Item already in folder")
        else
          match castObjectId refId with
          | none => (db1, .caught (.castError refId))
          | some rid =>
            let wishlist1 : Wishlist :=
              { wishlist with
                folders := setItems wishlist.folders folder._id
                  (folder.items ++ [{ refId := rid, type := type }]) }
            match save db1 wishlist1 with
            | .error err => (db1, .caught err)
            | .ok db2 => (db2, .json wishlist1)

/-- Source `exports.removeItemFromFolder`. -/
def removeItemFromFolder (db : Store) (userId : ObjectId)
    (folderId itemId : String) : Store × Response :=
  let (db1, wishlist) := ensureWishlist db userId
  match DocumentArray.id wishlist.folders folderId with
  | none => (db1, .status 404 "Folder not found")
  | some folder =>
    let wishlist1 : Wishlist :=
      { wishlist with
        folders := setItems wishlist.folders folder._id
          (folder.items.filter (fun item => toHexString item.refId != itemId)) }
    match save db1 wishlist1 with
    | .error err => (db1, .caught err)
    | .ok db2 => (db2, .json wishlist1)

/-- Source `exports.deleteFolder`. -/
def deleteFolder (db : Store) (userId : ObjectId) (folderId : String) :
    Store × Response :=
  let (db1, wishlist) := ensureWishlist db userId
  let wishlist1 : Wishlist :=
    { wishlist with
      folders := wishlist.folders.filter
        (fun folder => toHexString folder._id != folderId) }
  match save db1 wishlist1 with
  | .error err => (db1, .caught err)
  | .ok db2 => (db2, .json wishlist1)

/-! ## Requests (`wishlist.route.js`) -/

/-- One request to the router, with what the environment supplies while it
is served (the catalog contents, the generated folder id). -/
inductive Request where
  | getWishlist (userId : ObjectId)
  | createFolder (userId : ObjectId) (name : Option String) (fresh : ObjectId)
  | addItemToFolder (cat : Catalog) (userId : ObjectId) (folderId refId type : String)
  | removeItemFromFolder (userId : ObjectId) (folderId itemId : String)
  | deleteFolder (userId : ObjectId) (folderId : String)

/-- The router of `wishlist.route.js`: each route calls its handler. -/
def handle (db : Store) : Request → Store × Response
  | .getWishlist u => getWishlist db u
  | .createFolder u name fresh => createFolder db u name fresh
  | .addItemToFolder cat u folderId refId type => addItemToFolder db cat u folderId refId type
  | .removeItemFromFolder u folderId itemId => removeItemFromFolder db u folderId itemId
  | .deleteFolder u folderId => deleteFolder db u folderId

/-- The collection after a sequence of requests. -/
def run (db : Store) : List Request → Store
  | [] => db
  | r :: rs => run (handle db r).1 rs

/-- An id whose 24 digits are all `d` (used for examples). -/
def ObjectId.rep (d : Fin 16) : ObjectId :=
  ⟨List.replicate 24 d, List.length_replicate 24 d⟩

/-! ## Sample data -/

/-- A user id. -/
def sampleUser : ObjectId := ObjectId.rep 1

/-- Another user id. -/
def otherUser : ObjectId := ObjectId.rep 3

/-- A folder id, `aaaaaaaaaaaaaaaaaaaaaaaa`. -/
def sampleFolder : ObjectId := ObjectId.rep 10

/-- A listing id, `bbbbbbbbbbbbbbbbbbbbbbbb`. -/
def sampleListing : ObjectId := ObjectId.rep 11

/-- A second listing id, `cccccccccccccccccccccccc`. -/
def secondListing : ObjectId := ObjectId.rep 12

/-- A third listing id, `dddddddddddddddddddddddd`. -/
def thirdListing : ObjectId := ObjectId.rep 13

/-- A catalog with the three sample listings and no experience. -/
def sampleCatalog : Catalog := ⟨[sampleListing, secondListing, thirdListing], []⟩

/-- A folder "Trips" holding the first two sample listings. -/
def sampleTrips : Folder :=
  ⟨sampleFolder, some "Trips",
    [⟨sampleListing, "listing"⟩, ⟨secondListing, "listing"⟩]⟩

/-- The wishlist of `sampleUser`: the folder "Trips". -/
def sampleWishlist : Wishlist := ⟨sampleUser, [sampleTrips]⟩

/-- A collection where `otherUser` has an empty wishlist and `sampleUser` has
`sampleWishlist`. -/
def sampleStore : Store := [⟨otherUser, []⟩, sampleWishlist]

/-- A second folder id, `eeeeeeeeeeeeeeeeeeeeeeee`. -/
def secondFolder : ObjectId := ObjectId.rep 14

/-- A folder "Ideas" holding the first sample listing. -/
def sampleIdeas : Folder :=
  ⟨secondFolder, some "Ideas", [⟨sampleListing, "listing"⟩]⟩

/-- A wishlist of `sampleUser` with two folders, "Trips" then "Ideas". -/
def twoFolderWishlist : Wishlist := ⟨sampleUser, [sampleTrips, sampleIdeas]⟩

/-- A collection where `otherUser` has an empty wishlist and `sampleUser` has
`twoFolderWishlist`. -/
def twoFolderStore : Store := [⟨otherUser, []⟩, twoFolderWishlist]

/-- The folder uniqueness invariant: in every wishlist of the collection no
folder holds two items with the same `(refId, type)` pair. -/
def NoDuplicateItems (db : Store) : Prop :=
  ∀ w ∈ db, ∀ f ∈ w.folders, f.items.Nodup

/-- Three requests of `sampleUser`: create the folder "Favorites", add the
sample listing to it, add the same listing with its id in upper case. -/
def duplicateRequests : List Request :=
  [.createFolder sampleUser (some "Favorites") sampleFolder,
   .addItemToFolder sampleCatalog sampleUser "aaaaaaaaaaaaaaaaaaaaaaaa"
      "bbbbbbbbbbbbbbbbbbbbbbbb" "listing",
   .addItemToFolder sampleCatalog sampleUser "aaaaaaaaaaaaaaaaaaaaaaaa"
      "BBBBBBBBBBBBBBBBBBBBBBBB" "listing"]

/-! ## Facts about ids -/

theorem hexVal_hexChar (d : Fin 16) : hexVal (hexChar d) = some d := by
  revert d; decide

theorem hexChar_injective (a b : Fin 16) (h : hexChar a = hexChar b) : a = b := by
  have ha := hexVal_hexChar a
  rw [h, hexVal_hexChar b] at ha
  exact (Option.some.inj ha).symm

theorem parseHex_map_hexChar (l : List (Fin 16)) :
    parseHex (l.map hexChar) = some l := by
  induction l with
  | nil => rfl
  | cons d ds ih => simp [parseHex, hexVal_hexChar, ih]

/-- Casting the string form of an id gives the id back. -/
theorem castObjectId_toHexString (id : ObjectId) :
    castObjectId (toHexString id) = some id := by
  obtain ⟨ds, hs⟩ := id
  simp [castObjectId, toHexString, parseHex_map_hexChar, hs]

/-- Two ids with the same string form are the same id. -/
theorem toHexString_injective {a b : ObjectId}
    (h : toHexString a = toHexString b) : a = b := by
  have ha := castObjectId_toHexString a
  rw [h, castObjectId_toHexString b] at ha
  exact (Option.some.inj ha).symm

theorem toHexString_beq {a b : ObjectId} :
    (toHexString a == toHexString b) = true ↔ a = b := by
  constructor
  · intro h
    exact toHexString_injective (by simpa using h)
  · intro h
    simp [h]

/-- For a request string that is no id, or is the string form of the id it is
cast to, comparing the string form of a stored id with the string is
comparing the stored id with the id the string is cast to. -/
theorem toHexString_ne_iff {s : String} (id : ObjectId)
    (hc : ∀ c, castObjectId s = some c → toHexString c = s) :
    (toHexString id != s) = decide (castObjectId s ≠ some id) := by
  by_cases h : toHexString id = s
  · have h1 : castObjectId s = some id := by
      rw [← h]
      exact castObjectId_toHexString id
    simp [h, h1]
  · have h1 : castObjectId s ≠ some id := by
      intro hcast
      exact h (hc id hcast)
    simp [h, h1]

/-! ## Facts about the collection -/

theorem findOne_userId {db : Store} {u : ObjectId} {w : Wishlist}
    (h : findOne db u = some w) : w.userId = u := by
  induction db with
  | nil => simp [findOne] at h
  | cons d ds ih =>
    unfold findOne at h
    split at h
    · cases h; assumption
    · exact ih h

theorem findOne_eq_none {db : Store} {u : ObjectId} :
    findOne db u = none ↔ ∀ w ∈ db, w.userId ≠ u := by
  induction db with
  | nil => simp [findOne]
  | cons d ds ih =>
    unfold findOne
    by_cases hd : d.userId = u <;> simp [hd, ih]

theorem findOne_split {db : Store} {u : ObjectId} {w : Wishlist}
    (h : findOne db u = some w) :
    ∃ pre post, db = pre ++ w :: post ∧ ∀ d ∈ pre, d.userId ≠ u := by
  induction db with
  | nil => simp [findOne] at h
  | cons d ds ih =>
    unfold findOne at h
    split at h
    · cases h
      exact ⟨[], ds, rfl, by simp⟩
    · next hd =>
      obtain ⟨pre, post, hdb, hpre⟩ := ih h
      refine ⟨d :: pre, post, by simp [hdb], ?_⟩
      intro x hx
      rcases List.mem_cons.mp hx with rfl | hx
      · exact hd
      · exact hpre x hx

theorem findOne_of_split {pre post : Store} {u : ObjectId} {w : Wishlist}
    (hpre : ∀ d ∈ pre, d.userId ≠ u) (hw : w.userId = u) :
    findOne (pre ++ w :: post) u = some w := by
  induction pre with
  | nil => simp [findOne, hw]
  | cons d ds ih =>
    have hd : d.userId ≠ u := hpre d (by simp)
    have h1 := ih (fun x hx => hpre x (by simp [hx]))
    simp [findOne, hd, h1]

theorem writeBack_split {pre post : Store} (w w1 : Wishlist)
    (hpre : ∀ d ∈ pre, d.userId ≠ w1.userId) (hw : w.userId = w1.userId) :
    writeBack (pre ++ w :: post) w1 = pre ++ w1 :: post := by
  induction pre with
  | nil => simp [writeBack, hw]
  | cons d ds ih =>
    have hd : d.userId ≠ w1.userId := hpre d (by simp)
    have h1 := ih (fun x hx => hpre x (by simp [hx]))
    simp [writeBack, hd, h1]

theorem writeBack_split_user {pre post : Store} {u : ObjectId}
    (fs fs1 : List Folder) (hpre : ∀ d ∈ pre, d.userId ≠ u) :
    writeBack (pre ++ ⟨u, fs⟩ :: post) ⟨u, fs1⟩ = pre ++ ⟨u, fs1⟩ :: post :=
  writeBack_split ⟨u, fs⟩ ⟨u, fs1⟩ hpre rfl

theorem writeBack_self {db : Store} {u : ObjectId} {w : Wishlist}
    (h : findOne db u = some w) : writeBack db w = db := by
  obtain ⟨pre, post, hdb, hpre⟩ := findOne_split h
  have hu := findOne_userId h
  rw [hdb]
  exact writeBack_split w w (by rw [hu]; exact hpre) rfl

theorem ensureWishlist_of_some {db : Store} {u : ObjectId} {w : Wishlist}
    (h : findOne db u = some w) : ensureWishlist db u = (db, w) := by
  simp [ensureWishlist, h]

theorem ensureWishlist_of_none {db : Store} {u : ObjectId}
    (h : findOne db u = none) :
    ensureWishlist db u = (db ++ [⟨u, []⟩], ⟨u, []⟩) := by
  simp [ensureWishlist, h, create]

/-! ## Facts about validation and `save` -/

theorem save_of_valid {db : Store} {w : Wishlist} (h : validate w = true) :
    save db w = .ok (writeBack db w) := by
  simp [save, h]

theorem save_of_invalid {db : Store} {w : Wishlist} (h : validate w = false) :
    save db w = .error .validationError := by
  simp [save, h]

theorem validate_split {u : ObjectId} {pre post : List Folder} {f : Folder} :
    validate ⟨u, pre ++ f :: post⟩ = true ↔
      (∀ g ∈ pre, validateFolder g = true) ∧ validateFolder f = true ∧
        ∀ g ∈ post, validateFolder g = true := by
  simp [validate, List.all_append]

theorem validate_push (u : ObjectId) (fs : List Folder) (g : Folder) :
    validate ⟨u, fs ++ [g]⟩ = (validate ⟨u, fs⟩ && validateFolder g) := by
  simp [validate, List.all_append]

theorem validateFolder_new (fresh : ObjectId) (name : Option String) :
    validateFolder ⟨fresh, name, []⟩ = checkRequired name := by
  simp [validateFolder]

theorem validateFolder_filter {f : Folder} (p : Item → Bool)
    (h : validateFolder f = true) :
    validateFolder { f with items := f.items.filter p } = true := by
  simp only [validateFolder, Bool.and_eq_true, List.all_eq_true] at h ⊢
  exact ⟨h.1, fun i hi => h.2 i (List.mem_filter.mp hi).1⟩

/-! ## Facts about document arrays and the catalog -/

theorem id_eq_some {folders : List Folder} {s : String} {f : Folder}
    (h : DocumentArray.id folders s = some f) :
    castObjectId s = some f._id ∧
      ∃ pre post, folders = pre ++ f :: post ∧ ∀ g ∈ pre, g._id ≠ f._id := by
  unfold DocumentArray.id at h
  split at h
  · cases h
  · next c hc =>
    have hfc : c = f._id := by
      have := List.find?_some h
      exact toHexString_beq.mp this
    subst hfc
    refine ⟨hc, ?_⟩
    clear hc
    induction folders with
    | nil => simp at h
    | cons g gs ih =>
      rw [List.find?_cons] at h
      split at h
      · cases h
        exact ⟨[], gs, rfl, by simp⟩
      · next hg =>
        obtain ⟨pre, post, hgs, hpre⟩ := ih h
        refine ⟨g :: pre, post, by simp [hgs], ?_⟩
        intro x hx
        rcases List.mem_cons.mp hx with rfl | hx
        · intro hx2
          rw [hx2] at hg
          simp at hg
        · exact hpre x hx

theorem id_of_split {pre post : List Folder} {s : String} {f : Folder}
    (hcast : castObjectId s = some f._id) (hpre : ∀ g ∈ pre, g._id ≠ f._id) :
    DocumentArray.id (pre ++ f :: post) s = some f := by
  unfold DocumentArray.id
  rw [hcast]
  simp only
  induction pre with
  | nil => simp
  | cons g gs ih =>
    have hg : g._id ≠ f._id := hpre g (by simp)
    have hg2 : (toHexString f._id == toHexString g._id) = false := by
      rw [Bool.eq_false_iff]
      intro h
      exact hg (toHexString_beq.mp h).symm
    have h1 := ih (fun x hx => hpre x (by simp [hx]))
    simp only [List.cons_append, List.find?_cons, hg2]
    exact h1

theorem id_nil (s : String) : DocumentArray.id [] s = none := by
  unfold DocumentArray.id
  split <;> rfl

theorem id_eq_none {folders : List Folder} {s : String}
    (h : DocumentArray.id folders s = none) :
    ∀ c, castObjectId s = some c → ∀ g ∈ folders, g._id ≠ c := by
  intro c hc g hg hgc
  unfold DocumentArray.id at h
  rw [hc] at h
  simp only [List.find?_eq_none] at h
  have := h g hg
  rw [hgc] at this
  simp at this

theorem id_of_forall_ne {folders : List Folder} {s : String}
    (h : ∀ c, castObjectId s = some c → ∀ g ∈ folders, g._id ≠ c) :
    DocumentArray.id folders s = none := by
  unfold DocumentArray.id
  split
  · rfl
  · next c hc =>
    rw [List.find?_eq_none]
    intro g hg hp
    exact h c hc g hg (toHexString_beq.mp (by simpa using hp)).symm

theorem id_singleton_toHexString (f : Folder) :
    DocumentArray.id [f] (toHexString f._id) = some f := by
  simp [DocumentArray.id, castObjectId_toHexString]

theorem setItems_split {pre post : List Folder} {f : Folder} (items : List Item)
    (hpre : ∀ g ∈ pre, g._id ≠ f._id) :
    setItems (pre ++ f :: post) f._id items
      = pre ++ { f with items := items } :: post := by
  induction pre with
  | nil => simp [setItems]
  | cons g gs ih =>
    have hg : g._id ≠ f._id := hpre g (by simp)
    have hg2 : ¬ (toHexString f._id == toHexString g._id) = true := by
      rw [toHexString_beq]
      exact fun h => hg h.symm
    have h1 := ih (fun x hx => hpre x (by simp [hx]))
    simp [setItems, hg2, h1]

theorem findById_eq_some {coll : List ObjectId} {s : String} {e : ObjectId}
    (h : findById coll s = .ok (some e)) : castObjectId s = some e ∧ e ∈ coll := by
  unfold findById at h
  split at h
  · cases h
  · next oid hc =>
    by_cases hm : oid ∈ coll
    · simp only [hm, if_true] at h
      cases h
      exact ⟨hc, hm⟩
    · simp only [hm, if_false] at h
      cases h

/-- What a successful `addItemToFolder` went through. -/
theorem addItemToFolder_json {db db1 : Store} {cat : Catalog} {u : ObjectId}
    {folderId refId type : String} {w1 : Wishlist}
    (h : addItemToFolder db cat u folderId refId type = (db1, .json w1)) :
    ∃ w f rid, findOne db u = some w ∧
      DocumentArray.id w.folders folderId = some f ∧
      castObjectId refId = some rid ∧
      w1 = ⟨w.userId, setItems w.folders f._id (f.items ++ [⟨rid, type⟩])⟩ ∧
      validate w1 = true ∧ db1 = writeBack db w1 := by
  unfold addItemToFolder at h
  split at h
  · cases h
  · split at h
    · cases h
    · cases h
    · cases hw : findOne db u with
      | none =>
        simp only [ensureWishlist_of_none hw, id_nil] at h
        cases h
      | some w =>
        simp only [ensureWishlist_of_some hw] at h
        split at h
        · cases h
        · next folder hf =>
          split at h
          · cases h
          · split at h
            · cases h
            · next rid hrid =>
              split at h
              · cases h
              · next db2 hsave =>
                unfold save at hsave
                split at hsave
                · next hv =>
                  cases hsave
                  cases h
                  exact ⟨w, folder, rid, rfl, hf, hrid, rfl, hv, rfl⟩
                · cases hsave

/-! ## Claims -/

/-- C1 does not hold on the code. The duplicate check of `addItemToFolder`
compares `item.refId.toString()` (lower case) with the raw request string,
while the catalog lookup and the stored `refId` use the ObjectId the string is
cast to. From the empty collection: create a folder, add the listing
`bbbbbbbbbbbbbbbbbbbbbbbb`, add it again written in upper case. Both additions
succeed and the folder holds the pair (that listing, "listing") twice. -/
theorem addItemToFolder_duplicate_reachable :
    run [] duplicateRequests
      = [⟨sampleUser, [⟨sampleFolder, some "Favorites",
          [⟨sampleListing, "listing"⟩, ⟨sampleListing, "listing"⟩]⟩]⟩] ∧
    ¬ NoDuplicateItems (run [] duplicateRequests) := by
  have h : run [] duplicateRequests
      = [⟨sampleUser, [⟨sampleFolder, some "Favorites",
          [⟨sampleListing, "listing"⟩, ⟨sampleListing, "listing"⟩]⟩]⟩] := by
    decide
  refine ⟨h, ?_⟩
  rw [h]
  intro hnd
  have := hnd _ (List.mem_singleton.mpr rfl) _ (List.mem_singleton.mpr rfl)
  simp at this

/-- C2 does not hold on the code. The folder "Trips" of `sampleUser` holds the
pair (`cccccccccccccccccccccccc`, "listing"). The same `refId` written in
upper case is cast to that very id by `Listing.findById` and by the push, but
the duplicate check compares `item.refId.toString()` with the raw string: the
call answers 200 and the folder holds the pair twice, where the claim has 400
"Item already in folder" and the items unchanged. With the id in lower case
the conflict is answered. -/
theorem addItemToFolder_uppercase_no_conflict :
    castObjectId "CCCCCCCCCCCCCCCCCCCCCCCC" = some secondListing ∧
    (⟨secondListing, "listing"⟩ : Item) ∈ sampleTrips.items ∧
    DocumentArray.id sampleWishlist.folders "aaaaaaaaaaaaaaaaaaaaaaaa"
      = some sampleTrips ∧
    addItemToFolder sampleStore sampleCatalog sampleUser "aaaaaaaaaaaaaaaaaaaaaaaa"
        "CCCCCCCCCCCCCCCCCCCCCCCC" "listing"
      = ([⟨otherUser, []⟩, ⟨sampleUser, [⟨sampleFolder, some "Trips",
            [⟨sampleListing, "listing"⟩, ⟨secondListing, "listing"⟩,
              ⟨secondListing, "listing"⟩]⟩]⟩],
          .json ⟨sampleUser, [⟨sampleFolder, some "Trips",
            [⟨sampleListing, "listing"⟩, ⟨secondListing, "listing"⟩,
              ⟨secondListing, "listing"⟩]⟩]⟩) ∧
    addItemToFolder sampleStore sampleCatalog sampleUser "aaaaaaaaaaaaaaaaaaaaaaaa"
        "cccccccccccccccccccccccc" "listing"
      = (sampleStore, .status 400 "Item already in folder") := by
  decide

/-- C3: for a type that passes the type check, when the catalog lookup of that
type returns no document, `addItemToFolder` answers 404 "Item not found" and
the collection after the call is the collection before it (no item added, no
wishlist created). -/
theorem addItemToFolder_item_not_found (db : Store) (cat : Catalog)
    (userId : ObjectId) (folderId refId type : String)
    (hty : type = "listing" ∨ type = "experience")
    (hno : catalogLookup cat refId type = .ok none) :
    addItemToFolder db cat userId folderId refId type
      = (db, .status 404 "Item not found") := by
  rcases hty with rfl | rfl <;> simp [addItemToFolder, hno]

theorem addItemToFolder_item_not_found_witness :
    addItemToFolder sampleStore sampleCatalog sampleUser "aaaaaaaaaaaaaaaaaaaaaaaa"
      "eeeeeeeeeeeeeeeeeeeeeeee" "listing"
      = (sampleStore, .status 404 "Item not found") :=
  addItemToFolder_item_not_found sampleStore sampleCatalog sampleUser
    "aaaaaaaaaaaaaaaaaaaaaaaa" "eeeeeeeeeeeeeeeeeeeeeeee" "listing"
    (by decide) rfl

/-- C4 (as the code has it): the type check of `addItemToFolder` lets exactly
"listing" and "experience" through; every other type is answered 400
"Invalid item type" with the collection unchanged, and a call that succeeds
has type "listing" (the schema's enum rejects anything else on save). -/
theorem addItemToFolder_type_guard (db : Store) (cat : Catalog)
    (userId : ObjectId) (folderId refId type : String) :
    (type ≠ "listing" → type ≠ "experience" →
      addItemToFolder db cat userId folderId refId type
        = (db, .status 400 "Invalid item type")) ∧
    (∀ db1 w1, addItemToFolder db cat userId folderId refId type = (db1, .json w1) →
      type = "listing") := by
  constructor
  · intro h1 h2
    simp [addItemToFolder, h1, h2]
  · intro db1 w1 h
    obtain ⟨w, f, rid, _, hf, _, hw1, hv, _⟩ := addItemToFolder_json h
    obtain ⟨_, pre, post, hfs, hpre⟩ := id_eq_some hf
    rw [hw1, hfs, setItems_split _ hpre, validate_split] at hv
    have hitem : validateItem ⟨rid, type⟩ = true := by
      have hall := hv.2.1
      simp only [validateFolder, Bool.and_eq_true, List.all_eq_true] at hall
      exact hall.2 _ (by simp)
    simpa [validateItem, typeEnum] using hitem

theorem addItemToFolder_type_guard_witness :
    addItemToFolder sampleStore sampleCatalog sampleUser "aaaaaaaaaaaaaaaaaaaaaaaa"
        "bbbbbbbbbbbbbbbbbbbbbbbb" "service"
      = (sampleStore, .status 400 "Invalid item type") ∧
    "listing" = "listing" :=
  ⟨(addItemToFolder_type_guard sampleStore sampleCatalog sampleUser
      "aaaaaaaaaaaaaaaaaaaaaaaa" "bbbbbbbbbbbbbbbbbbbbbbbb" "service").1
      (by decide) (by decide),
   (addItemToFolder_type_guard sampleStore sampleCatalog sampleUser
      "aaaaaaaaaaaaaaaaaaaaaaaa" "dddddddddddddddddddddddd" "listing").2
      [⟨otherUser, []⟩, ⟨sampleUser, [⟨sampleFolder, some "Trips",
        [⟨sampleListing, "listing"⟩, ⟨secondListing, "listing"⟩,
          ⟨thirdListing, "listing"⟩]⟩]⟩]
      ⟨sampleUser, [⟨sampleFolder, some "Trips",
        [⟨sampleListing, "listing"⟩, ⟨secondListing, "listing"⟩,
          ⟨thirdListing, "listing"⟩]⟩]⟩
      (by decide)⟩

/-- C4 fails as stated at type "experience", which is not the active type
"listing": the type check lets it through. With no such experience the answer
is 404 "Item not found"; with the experience in the catalog and a user who has
no wishlist the answer is 404 "Folder not found" and a wishlist was created;
with the folder present the save is rejected by the enum and the answer is the
500 of the `catch` branch. None is 400 "Invalid item type". -/
theorem addItemToFolder_experience_counterexample :
    addItemToFolder [] ⟨[], []⟩ sampleUser "aaaaaaaaaaaaaaaaaaaaaaaa"
        "bbbbbbbbbbbbbbbbbbbbbbbb" "experience"
      = ([], .status 404 "Item not found") ∧
    addItemToFolder [] ⟨[], [sampleListing]⟩ sampleUser "aaaaaaaaaaaaaaaaaaaaaaaa"
        "bbbbbbbbbbbbbbbbbbbbbbbb" "experience"
      = ([⟨sampleUser, []⟩], .status 404 "Folder not found") ∧
    addItemToFolder sampleStore ⟨[], [sampleListing]⟩ sampleUser
        "aaaaaaaaaaaaaaaaaaaaaaaa" "bbbbbbbbbbbbbbbbbbbbbbbb" "experience"
      = (sampleStore, .caught .validationError) := by
  decide

/-- C5: for a user with no wishlist in the collection, `ensureWishlist` /
`getWishlist` returns the wishlist of that user with no folders and stores it;
a second call on the resulting collection returns the same wishlist and leaves
the collection unchanged, which then holds exactly one wishlist of the user. -/
theorem getWishlist_idempotent (db : Store) (userId : ObjectId)
    (h : ∀ w ∈ db, w.userId ≠ userId) :
    ensureWishlist db userId = (db ++ [⟨userId, []⟩], ⟨userId, []⟩) ∧
    getWishlist db userId = (db ++ [⟨userId, []⟩], .json ⟨userId, []⟩) ∧
    ensureWishlist (getWishlist db userId).1 userId
      = (db ++ [⟨userId, []⟩], ⟨userId, []⟩) ∧
    getWishlist (getWishlist db userId).1 userId
      = (db ++ [⟨userId, []⟩], .json ⟨userId, []⟩) ∧
    (getWishlist (getWishlist db userId).1 userId).1.countP
      (fun w => w.userId = userId) = 1 := by
  have hnone : findOne db userId = none := findOne_eq_none.mpr h
  have h1 := ensureWishlist_of_none hnone
  have hsome : findOne (db ++ [⟨userId, []⟩]) userId = some ⟨userId, []⟩ :=
    @findOne_of_split db [] userId ⟨userId, []⟩ h rfl
  have h2 := ensureWishlist_of_some hsome
  have hg1 : getWishlist db userId = (db ++ [⟨userId, []⟩], .json ⟨userId, []⟩) := by
    simp [getWishlist, h1]
  have hg2 : getWishlist (db ++ [⟨userId, []⟩]) userId
      = (db ++ [⟨userId, []⟩], .json ⟨userId, []⟩) := by
    simp [getWishlist, h2]
  refine ⟨h1, hg1, ?_, ?_, ?_⟩
  · rw [hg1]; exact h2
  · rw [hg1]; exact hg2
  · rw [hg1, hg2]
    have h0 : db.countP (fun w => decide (w.userId = userId)) = 0 := by
      rw [List.countP_eq_zero]
      intro w hw
      simpa using h w hw
    simp [List.countP_append, h0]

theorem getWishlist_idempotent_witness :
    (∀ w ∈ [(⟨otherUser, []⟩ : Wishlist)], w.userId ≠ sampleUser) ∧
    getWishlist [⟨otherUser, []⟩] sampleUser
      = ([⟨otherUser, []⟩, ⟨sampleUser, []⟩], .json ⟨sampleUser, []⟩) :=
  ⟨by decide, (getWishlist_idempotent [⟨otherUser, []⟩] sampleUser (by decide)).2.1⟩

/-- C6: when the id resolves a folder of the user's (schema-valid) wishlist
and no item of that folder has `itemId` as the string form of its `refId`,
`removeItemFromFolder` succeeds with the wishlist as it was: the folder's
items, every other folder and the whole collection are unchanged. -/
theorem removeItemFromFolder_absent (db : Store) (userId : ObjectId)
    (folderId itemId : String) (w : Wishlist) (f : Folder)
    (hw : findOne db userId = some w) (hv : validate w = true)
    (hf : DocumentArray.id w.folders folderId = some f)
    (hno : ∀ item ∈ f.items, toHexString item.refId ≠ itemId) :
    removeItemFromFolder db userId folderId itemId = (db, .json w) := by
  obtain ⟨_, pre, post, hfs, hpre⟩ := id_eq_some hf
  have hfilter : f.items.filter (fun item => toHexString item.refId != itemId)
      = f.items := by
    rw [List.filter_eq_self]
    intro item hi
    simpa using hno item hi
  have hset : setItems w.folders f._id f.items = w.folders := by
    rw [hfs, setItems_split f.items hpre]
  have hsame : ({ w with folders := w.folders } : Wishlist) = w := rfl
  simp only [removeItemFromFolder, ensureWishlist_of_some hw, hf, hfilter, hset]
  rw [save_of_valid hv, writeBack_self hw]

theorem removeItemFromFolder_absent_witness :
    removeItemFromFolder sampleStore sampleUser "aaaaaaaaaaaaaaaaaaaaaaaa"
      "dddddddddddddddddddddddd" = (sampleStore, .json sampleWishlist) :=
  removeItemFromFolder_absent sampleStore sampleUser "aaaaaaaaaaaaaaaaaaaaaaaa"
    "dddddddddddddddddddddddd" sampleWishlist sampleTrips
    (by decide) (by decide) (by decide) (by decide)

/-- C7 does not hold on the code. `deleteFolder` compares the raw request
string with `folder._id.toString()` (lower case), while `folders.id(folderId)`
in `addItemToFolder` casts the request string first. With the folder id
written in upper case, `deleteFolder` succeeds and removes nothing, and the
following `addItemToFolder` to the same folder id succeeds and adds the item
instead of answering "Folder not found". With the same id in lower case the
folder is removed and the following call answers "Folder not found". -/
theorem deleteFolder_uppercase_keeps_folder :
    deleteFolder sampleStore sampleUser "AAAAAAAAAAAAAAAAAAAAAAAA"
      = (sampleStore, .json sampleWishlist) ∧
    addItemToFolder
        (deleteFolder sampleStore sampleUser "AAAAAAAAAAAAAAAAAAAAAAAA").1
        sampleCatalog sampleUser "AAAAAAAAAAAAAAAAAAAAAAAA"
        "dddddddddddddddddddddddd" "listing"
      = ([⟨otherUser, []⟩, ⟨sampleUser, [⟨sampleFolder, some "Trips",
            [⟨sampleListing, "listing"⟩, ⟨secondListing, "listing"⟩,
              ⟨thirdListing, "listing"⟩]⟩]⟩],
          .json ⟨sampleUser, [⟨sampleFolder, some "Trips",
            [⟨sampleListing, "listing"⟩, ⟨secondListing, "listing"⟩,
              ⟨thirdListing, "listing"⟩]⟩]⟩) ∧
    deleteFolder sampleStore sampleUser "aaaaaaaaaaaaaaaaaaaaaaaa"
      = ([⟨otherUser, []⟩, ⟨sampleUser, []⟩], .json ⟨sampleUser, []⟩) ∧
    addItemToFolder
        (deleteFolder sampleStore sampleUser "aaaaaaaaaaaaaaaaaaaaaaaa").1
        sampleCatalog sampleUser "aaaaaaaaaaaaaaaaaaaaaaaa"
        "dddddddddddddddddddddddd" "listing"
      = ([⟨otherUser, []⟩, ⟨sampleUser, []⟩], .status 404 "Folder not found") := by
  decide

/-- C8: for a user with no wishlist, `createFolder` with a non-empty name
followed by `addItemToFolder` on the id of the created folder (in the string
form the response shows it), with the `refId` of an existing listing and type
"listing", both succeed and the wishlist then has exactly one folder, of that
name, holding exactly the item `(refId, "listing")`. And whenever
`addItemToFolder` succeeds, the user had a wishlist, the target folder is the
first folder of it whose `_id` is the id the request's folder id is cast to,
and the result is that wishlist with the one item `(refId, type)`, `refId`
being the id the request string is cast to, appended at the end of that
folder: the other folders and the other documents are as before. -/
theorem addItemToFolder_appends :
    (∀ (db : Store) (cat : Catalog) (userId fresh rid : ObjectId)
        (name refId : String),
      (∀ w ∈ db, w.userId ≠ userId) → name ≠ "" →
      catalogLookup cat refId "listing" = .ok (some rid) →
      createFolder db userId (some name) fresh
        = (db ++ [⟨userId, [⟨fresh, some name, []⟩]⟩],
            .json ⟨userId, [⟨fresh, some name, []⟩]⟩) ∧
      castObjectId refId = some rid ∧
      addItemToFolder (createFolder db userId (some name) fresh).1 cat userId
          (toHexString fresh) refId "listing"
        = (db ++ [⟨userId, [⟨fresh, some name, [⟨rid, "listing"⟩]⟩]⟩],
            .json ⟨userId, [⟨fresh, some name, [⟨rid, "listing"⟩]⟩]⟩)) ∧
    (∀ (db db1 : Store) (cat : Catalog) (userId : ObjectId)
        (folderId refId type : String) (w1 : Wishlist),
      addItemToFolder db cat userId folderId refId type = (db1, .json w1) →
      ∃ w f rid pre post dpre dpost,
        findOne db userId = some w ∧
        DocumentArray.id w.folders folderId = some f ∧
        castObjectId folderId = some f._id ∧
        castObjectId refId = some rid ∧
        w.folders = pre ++ f :: post ∧ (∀ g ∈ pre, g._id ≠ f._id) ∧
        db = dpre ++ w :: dpost ∧ (∀ d ∈ dpre, d.userId ≠ userId) ∧
        w1 = ⟨userId, pre ++ ⟨f._id, f.name, f.items ++ [⟨rid, type⟩]⟩ :: post⟩ ∧
        db1 = dpre ++ w1 :: dpost) := by
  constructor
  · intro db cat userId fresh rid name refId h0 hn hex
    have hnone : findOne db userId = none := findOne_eq_none.mpr h0
    have hcreate : createFolder db userId (some name) fresh
        = (db ++ [⟨userId, [⟨fresh, some name, []⟩]⟩],
            .json ⟨userId, [⟨fresh, some name, []⟩]⟩) := by
      have hv1 : validate ⟨userId, [] ++ [⟨fresh, some name, []⟩]⟩ = true := by
        rw [validate_push, validateFolder_new]
        simp [checkRequired, hn, validate]
      simp only [createFolder, ensureWishlist_of_none hnone]
      rw [save_of_valid hv1]
      simp only []
      rw [@writeBack_split_user db [] userId _ _ h0]
      rfl
    have hrid : castObjectId refId = some rid := by
      simp only [catalogLookup, if_true] at hex
      exact (findById_eq_some hex).1
    refine ⟨hcreate, hrid, ?_⟩
    rw [hcreate]
    have hw : findOne (db ++ [⟨userId, [⟨fresh, some name, []⟩]⟩]) userId
        = some ⟨userId, [⟨fresh, some name, []⟩]⟩ :=
      @findOne_of_split db [] userId ⟨userId, [⟨fresh, some name, []⟩]⟩ h0 rfl
    have hv2 : validate ⟨userId, [⟨fresh, some name, [⟨rid, "listing"⟩]⟩]⟩ = true := by
      simp [validate, validateFolder, validateItem, typeEnum, checkRequired, hn]
    have hset : setItems [⟨fresh, some name, []⟩] fresh [⟨rid, "listing"⟩]
        = [⟨fresh, some name, [⟨rid, "listing"⟩]⟩] := by
      simp [setItems]
    simp only [addItemToFolder, hex, ensureWishlist_of_some hw,
      id_singleton_toHexString ⟨fresh, some name, []⟩, hrid]
    simp only [List.contains_cons, beq_self_eq_true, Bool.true_or, Bool.not_true,
      List.any_nil, List.nil_append, hset, Bool.false_eq_true, if_false]
    rw [save_of_valid hv2]
    simp only []
    rw [@writeBack_split_user db [] userId _ _ h0]
  · intro db db1 cat userId folderId refId type w1 h
    obtain ⟨w, f, rid, hw, hf, hrid, hw1, _, hdb1⟩ := addItemToFolder_json h
    obtain ⟨hcast, pre, post, hfs, hpre⟩ := id_eq_some hf
    obtain ⟨dpre, dpost, hdb, hdpre⟩ := findOne_split hw
    have hu := findOne_userId hw
    have hw1b : w1 = ⟨userId, pre ++ ⟨f._id, f.name, f.items ++ [⟨rid, type⟩]⟩ :: post⟩ := by
      rw [hw1, hu, hfs, setItems_split _ hpre]
    refine ⟨w, f, rid, pre, post, dpre, dpost, hw, hf, hcast, hrid, hfs, hpre, hdb,
      hdpre, hw1b, ?_⟩
    rw [hdb1, hdb]
    exact writeBack_split w w1 (by rw [hw1b]; exact hdpre) (by rw [hw1b]; exact hu)

theorem addItemToFolder_appends_witness :
    (createFolder [⟨otherUser, []⟩] sampleUser (some "Favorites") sampleFolder
        = ([⟨otherUser, []⟩] ++ [⟨sampleUser, [⟨sampleFolder, some "Favorites", []⟩]⟩],
            .json ⟨sampleUser, [⟨sampleFolder, some "Favorites", []⟩]⟩) ∧
      castObjectId "BBBBBBBBBBBBBBBBBBBBBBBB" = some sampleListing ∧
      addItemToFolder
          (createFolder [⟨otherUser, []⟩] sampleUser (some "Favorites") sampleFolder).1
          sampleCatalog sampleUser (toHexString sampleFolder)
          "BBBBBBBBBBBBBBBBBBBBBBBB" "listing"
        = ([⟨otherUser, []⟩] ++ [⟨sampleUser, [⟨sampleFolder, some "Favorites",
              [⟨sampleListing, "listing"⟩]⟩]⟩],
            .json ⟨sampleUser, [⟨sampleFolder, some "Favorites",
              [⟨sampleListing, "listing"⟩]⟩]⟩)) ∧
    addItemToFolder twoFolderStore sampleCatalog sampleUser
        "eeeeeeeeeeeeeeeeeeeeeeee" "dddddddddddddddddddddddd" "listing"
      = ([⟨otherUser, []⟩, ⟨sampleUser, [sampleTrips, ⟨secondFolder, some "Ideas",
            [⟨sampleListing, "listing"⟩, ⟨thirdListing, "listing"⟩]⟩]⟩],
          .json ⟨sampleUser, [sampleTrips, ⟨secondFolder, some "Ideas",
            [⟨sampleListing, "listing"⟩, ⟨thirdListing, "listing"⟩]⟩]⟩) ∧
    (∃ w f rid pre post dpre dpost,
      findOne twoFolderStore sampleUser = some w ∧
      DocumentArray.id w.folders "eeeeeeeeeeeeeeeeeeeeeeee" = some f ∧
      castObjectId "eeeeeeeeeeeeeeeeeeeeeeee" = some f._id ∧
      castObjectId "dddddddddddddddddddddddd" = some rid ∧
      w.folders = pre ++ f :: post ∧ (∀ g ∈ pre, g._id ≠ f._id) ∧
      twoFolderStore = dpre ++ w :: dpost ∧ (∀ d ∈ dpre, d.userId ≠ sampleUser) ∧
      (⟨sampleUser, [sampleTrips, ⟨secondFolder, some "Ideas",
          [⟨sampleListing, "listing"⟩, ⟨thirdListing, "listing"⟩]⟩]⟩ : Wishlist)
        = ⟨sampleUser, pre ++ ⟨f._id, f.name, f.items ++ [⟨rid, "listing"⟩]⟩ :: post⟩ ∧
      ([⟨otherUser, []⟩, ⟨sampleUser, [sampleTrips, ⟨secondFolder, some "Ideas",
          [⟨sampleListing, "listing"⟩, ⟨thirdListing, "listing"⟩]⟩]⟩] : Store)
        = dpre ++ ⟨sampleUser, [sampleTrips, ⟨secondFolder, some "Ideas",
          [⟨sampleListing, "listing"⟩, ⟨thirdListing, "listing"⟩]⟩]⟩ :: dpost) :=
  ⟨addItemToFolder_appends.1 [⟨otherUser, []⟩] sampleCatalog sampleUser sampleFolder
      sampleListing "Favorites" "BBBBBBBBBBBBBBBBBBBBBBBB"
      (by decide) (by decide) rfl,
   by decide,
   addItemToFolder_appends.2 twoFolderStore _ sampleCatalog sampleUser
      "eeeeeeeeeeeeeeeeeeeeeeee" "dddddddddddddddddddddddd" "listing" _ (by decide)⟩

/-- C9: `createFolder` with a missing or empty name fails with Mongoose's
validation error (the `required` validator of `FolderSchema.name`, sent by the
`catch` branch) and no folder is stored: an existing wishlist is left as it
was, a user with no wishlist gets the empty one. With a non-empty name, on a
schema-valid wishlist, it succeeds and appends one folder with that name and
no items after the existing folders, whatever their names. -/
theorem createFolder_name_required (db : Store) (userId fresh : ObjectId) :
    (∀ name w, (name = none ∨ name = some "") → findOne db userId = some w →
      createFolder db userId name fresh = (db, .caught .validationError)) ∧
    (∀ name, (name = none ∨ name = some "") → findOne db userId = none →
      createFolder db userId name fresh
        = (db ++ [⟨userId, []⟩], .caught .validationError)) ∧
    (∀ n w, n ≠ "" → findOne db userId = some w → validate w = true →
      ∃ dpre dpost, db = dpre ++ w :: dpost ∧ (∀ d ∈ dpre, d.userId ≠ userId) ∧
        createFolder db userId (some n) fresh =
          (dpre ++ ⟨userId, w.folders ++ [⟨fresh, some n, []⟩]⟩ :: dpost,
            .json ⟨userId, w.folders ++ [⟨fresh, some n, []⟩]⟩)) ∧
    (∀ n, n ≠ "" → findOne db userId = none →
      createFolder db userId (some n) fresh =
        (db ++ [⟨userId, [⟨fresh, some n, []⟩]⟩],
          .json ⟨userId, [⟨fresh, some n, []⟩]⟩)) := by
  have hbad : ∀ name : Option String, (name = none ∨ name = some "") →
      checkRequired name = false := by
    intro name h
    rcases h with rfl | rfl <;> rfl
  have hgood : ∀ n : String, n ≠ "" → checkRequired (some n) = true := by
    intro n hn
    simp [checkRequired, hn]
  refine ⟨?_, ?_, ?_, ?_⟩
  · intro name w hname hw
    have hv : validate ⟨w.userId, w.folders ++ [⟨fresh, name, []⟩]⟩ = false := by
      rw [validate_push, validateFolder_new, hbad name hname, Bool.and_false]
    simp only [createFolder, ensureWishlist_of_some hw]
    rw [save_of_invalid hv]
  · intro name hname hw
    have hv : validate ⟨userId, [] ++ [⟨fresh, name, []⟩]⟩ = false := by
      rw [validate_push, validateFolder_new, hbad name hname, Bool.and_false]
    simp only [createFolder, ensureWishlist_of_none hw]
    rw [save_of_invalid hv]
  · intro n w hn hw hv
    obtain ⟨dpre, dpost, hdb, hdpre⟩ := findOne_split hw
    have hu := findOne_userId hw
    refine ⟨dpre, dpost, hdb, hdpre, ?_⟩
    obtain ⟨wu, wf⟩ := w
    simp only at hu
    subst hu
    have hv1 : validate ⟨wu, wf ++ [⟨fresh, some n, []⟩]⟩ = true := by
      rw [validate_push, validateFolder_new, hgood n hn, hv, Bool.and_true]
    simp only [createFolder, ensureWishlist_of_some hw]
    rw [save_of_valid hv1, hdb]
    simp only []
    rw [writeBack_split_user _ _ hdpre]
  · intro n hn hw
    have hv1 : validate ⟨userId, [] ++ [⟨fresh, some n, []⟩]⟩ = true := by
      rw [validate_push, validateFolder_new, hgood n hn]
      rfl
    simp only [createFolder, ensureWishlist_of_none hw]
    rw [save_of_valid hv1]
    simp only []
    rw [@writeBack_split_user db [] userId _ _ (findOne_eq_none.mp hw)]
    rfl

theorem createFolder_name_required_witness :
    createFolder sampleStore sampleUser (some "") thirdListing
      = (sampleStore, .caught .validationError) ∧
    createFolder [] sampleUser none thirdListing
      = ([] ++ [⟨sampleUser, []⟩], .caught .validationError) ∧
    (∃ dpre dpost, sampleStore = dpre ++ sampleWishlist :: dpost ∧
      (∀ d ∈ dpre, d.userId ≠ sampleUser) ∧
      createFolder sampleStore sampleUser (some "Trips") thirdListing =
        (dpre ++ ⟨sampleUser, sampleWishlist.folders
            ++ [⟨thirdListing, some "Trips", []⟩]⟩ :: dpost,
          .json ⟨sampleUser, sampleWishlist.folders
            ++ [⟨thirdListing, some "Trips", []⟩]⟩)) ∧
    createFolder [] sampleUser (some "Trips") thirdListing =
      ([] ++ [⟨sampleUser, [⟨thirdListing, some "Trips", []⟩]⟩],
        .json ⟨sampleUser, [⟨thirdListing, some "Trips", []⟩]⟩) :=
  ⟨(createFolder_name_required sampleStore sampleUser thirdListing).1
      (some "") sampleWishlist (by decide) (by decide),
   (createFolder_name_required [] sampleUser thirdListing).2.1
      none (by decide) (by decide),
   (createFolder_name_required sampleStore sampleUser thirdListing).2.2.1
      "Trips" sampleWishlist (by decide) (by decide) (by decide),
   (createFolder_name_required [] sampleUser thirdListing).2.2.2
      "Trips" (by decide) (by decide)⟩

/-- C10 (as the code has it): take the first folder of the user's
(schema-valid) wishlist whose `_id` is the id the request's folder id is cast
to, and an `itemId` that is the string form of the id it is cast to (lower
case, as the responses print ids) or is no id at all. Then
`removeItemFromFolder` succeeds and leaves in that folder exactly the items
whose `refId` is not the id of `itemId`, in their order, whatever their type;
the other folders and the other documents are unchanged. When no folder has
the id the folder id is cast to, the answer is 404 "Folder not found": an
existing wishlist is left as it was, and for a user with no wishlist the empty
wishlist made by `ensureWishlist` stays stored. -/
theorem removeItemFromFolder_spec (db : Store) (userId : ObjectId)
    (folderId itemId : String) :
    (∀ w f pre post, findOne db userId = some w → validate w = true →
      castObjectId folderId = some f._id →
      w.folders = pre ++ f :: post → (∀ g ∈ pre, g._id ≠ f._id) →
      (∀ c, castObjectId itemId = some c → toHexString c = itemId) →
      ∃ dpre dpost,
        db = dpre ++ w :: dpost ∧ (∀ d ∈ dpre, d.userId ≠ userId) ∧
        removeItemFromFolder db userId folderId itemId =
          (dpre ++ ⟨userId, pre ++ ⟨f._id, f.name, f.items.filter
              (fun item => decide (castObjectId itemId ≠ some item.refId))⟩
              :: post⟩ :: dpost,
            .json ⟨userId, pre ++ ⟨f._id, f.name, f.items.filter
              (fun item => decide (castObjectId itemId ≠ some item.refId))⟩
              :: post⟩)) ∧
    (∀ w, findOne db userId = some w →
      (∀ c, castObjectId folderId = some c → ∀ g ∈ w.folders, g._id ≠ c) →
      removeItemFromFolder db userId folderId itemId
        = (db, .status 404 "Folder not found")) ∧
    (findOne db userId = none →
      removeItemFromFolder db userId folderId itemId
        = (db ++ [⟨userId, []⟩], .status 404 "Folder not found")) := by
  refine ⟨?_, ?_, ?_⟩
  · intro w f pre post hw hv hcast hfs hpre hc
    have hf : DocumentArray.id w.folders folderId = some f := by
      rw [hfs]
      exact id_of_split hcast hpre
    have hfilter : f.items.filter (fun item => toHexString item.refId != itemId)
        = f.items.filter (fun item => decide (castObjectId itemId ≠ some item.refId)) :=
      List.filter_congr (fun item _ => toHexString_ne_iff item.refId hc)
    obtain ⟨dpre, dpost, hdb, hdpre⟩ := findOne_split hw
    have hu := findOne_userId hw
    refine ⟨dpre, dpost, hdb, hdpre, ?_⟩
    obtain ⟨wu, wf⟩ := w
    simp only at hfs hu
    subst hfs hu
    have hv1 : validate ⟨wu, pre ++ ⟨f._id, f.name, f.items.filter
        (fun item => decide (castObjectId itemId ≠ some item.refId))⟩ :: post⟩
        = true := by
      rw [validate_split] at hv ⊢
      exact ⟨hv.1, validateFolder_filter _ hv.2.1, hv.2.2⟩
    simp only [removeItemFromFolder, ensureWishlist_of_some hw, hf,
      setItems_split _ hpre, hfilter]
    rw [save_of_valid hv1, hdb]
    simp only []
    rw [writeBack_split_user _ _ hdpre]
  · intro w hw hf
    simp [removeItemFromFolder, ensureWishlist_of_some hw, id_of_forall_ne hf]
  · intro hw
    simp [removeItemFromFolder, ensureWishlist_of_none hw, id_nil]

theorem removeItemFromFolder_spec_witness :
    (∃ dpre dpost,
      twoFolderStore = dpre ++ twoFolderWishlist :: dpost ∧
      (∀ d ∈ dpre, d.userId ≠ sampleUser) ∧
      removeItemFromFolder twoFolderStore sampleUser "aaaaaaaaaaaaaaaaaaaaaaaa"
          "bbbbbbbbbbbbbbbbbbbbbbbb" =
        (dpre ++ ⟨sampleUser, [] ++ ⟨sampleTrips._id, sampleTrips.name,
            sampleTrips.items.filter (fun item =>
              decide (castObjectId "bbbbbbbbbbbbbbbbbbbbbbbb" ≠ some item.refId))⟩
              :: [sampleIdeas]⟩ :: dpost,
          .json ⟨sampleUser, [] ++ ⟨sampleTrips._id, sampleTrips.name,
            sampleTrips.items.filter (fun item =>
              decide (castObjectId "bbbbbbbbbbbbbbbbbbbbbbbb" ≠ some item.refId))⟩
              :: [sampleIdeas]⟩)) ∧
    removeItemFromFolder twoFolderStore sampleUser "aaaaaaaaaaaaaaaaaaaaaaaa"
        "bbbbbbbbbbbbbbbbbbbbbbbb"
      = ([⟨otherUser, []⟩, ⟨sampleUser, [⟨sampleFolder, some "Trips",
            [⟨secondListing, "listing"⟩]⟩, sampleIdeas]⟩],
          .json ⟨sampleUser, [⟨sampleFolder, some "Trips",
            [⟨secondListing, "listing"⟩]⟩, sampleIdeas]⟩) ∧
    removeItemFromFolder sampleStore sampleUser "ffffffffffffffffffffffff"
        "bbbbbbbbbbbbbbbbbbbbbbbb"
      = (sampleStore, .status 404 "Folder not found") ∧
    removeItemFromFolder [] sampleUser "ffffffffffffffffffffffff"
        "bbbbbbbbbbbbbbbbbbbbbbbb"
      = ([] ++ [⟨sampleUser, []⟩], .status 404 "Folder not found") :=
  ⟨(removeItemFromFolder_spec twoFolderStore sampleUser "aaaaaaaaaaaaaaaaaaaaaaaa"
      "bbbbbbbbbbbbbbbbbbbbbbbb").1 twoFolderWishlist sampleTrips [] [sampleIdeas]
      (by decide) (by decide) (by decide) (by decide) (by decide)
      (fun c hc => by
        have h0 : castObjectId "bbbbbbbbbbbbbbbbbbbbbbbb" = some sampleListing := by
          decide
        rw [h0] at hc
        cases hc
        decide),
   by decide,
   (removeItemFromFolder_spec sampleStore sampleUser "ffffffffffffffffffffffff"
      "bbbbbbbbbbbbbbbbbbbbbbbb").2.1 sampleWishlist (by decide)
      (fun c hc => by
        have h0 : castObjectId "ffffffffffffffffffffffff" = some (ObjectId.rep 15) := by
          decide
        rw [h0] at hc
        cases hc
        decide),
   (removeItemFromFolder_spec [] sampleUser "ffffffffffffffffffffffff"
      "bbbbbbbbbbbbbbbbbbbbbbbb").2.2 (by decide)⟩

/-- C10 fails as stated in two places. For a user who has no wishlist yet the
folder id is missing and the answer is 404 "Folder not found", but the
collection has changed: it now holds the empty wishlist created by
`ensureWishlist`, which every handler calls first. And with `itemId` written
in upper case, the item whose `refId` is the id that string is cast to stays
in the folder: the filter compares `item.refId.toString()` with the raw
string, while `folders.id` in the same handler casts the folder id it is
given (the folder is resolved from its upper-case id). -/
theorem removeItemFromFolder_creates_wishlist :
    (removeItemFromFolder [] sampleUser "aaaaaaaaaaaaaaaaaaaaaaaa"
        "bbbbbbbbbbbbbbbbbbbbbbbb"
      = ([⟨sampleUser, []⟩], .status 404 "Folder not found") ∧
     (removeItemFromFolder [] sampleUser "aaaaaaaaaaaaaaaaaaaaaaaa"
        "bbbbbbbbbbbbbbbbbbbbbbbb").1 ≠ []) ∧
    (castObjectId "BBBBBBBBBBBBBBBBBBBBBBBB" = some sampleListing ∧
     (⟨sampleListing, "listing"⟩ : Item) ∈ sampleTrips.items ∧
     removeItemFromFolder sampleStore sampleUser "AAAAAAAAAAAAAAAAAAAAAAAA"
        "BBBBBBBBBBBBBBBBBBBBBBBB"
      = (sampleStore, .json sampleWishlist)) := by
  decide

/-! ## Requests that carry an id in its string form -/

/-- The conflict branch of `addItemToFolder`: when the folder resolved by the
folder id holds an item of the requested type whose `refId.toString()` is the
request string itself, and the catalog entity exists, the answer is 400
"Item already in folder" and the collection is unchanged. -/
theorem addItemToFolder_conflict (db : Store) (cat : Catalog)
    (userId : ObjectId) (folderId refId type : String)
    (w : Wishlist) (f : Folder) (item : Item) (e : ObjectId)
    (hw : findOne db userId = some w)
    (hf : DocumentArray.id w.folders folderId = some f)
    (hi : item ∈ f.items)
    (hr : toHexString item.refId = refId) (ht : item.type = type)
    (hty : type = "listing" ∨ type = "experience")
    (hex : catalogLookup cat refId type = .ok (some e)) :
    addItemToFolder db cat userId folderId refId type
      = (db, .status 400 "Item already in folder") := by
  have hany : f.items.any
      (fun item => toHexString item.refId == refId && item.type == type) = true := by
    rw [List.any_eq_true]
    exact ⟨item, hi, by simp [hr, ht]⟩
  rcases hty with rfl | rfl <;>
    simp [addItemToFolder, hex, ensureWishlist_of_some hw, hf, hany]

/-- When the folder id of the request is the string form of the id it is cast
to (lower case, as the responses print it) or is no id at all, `deleteFolder`
on a schema-valid wishlist removes every folder with that id, keeps the others
in order, and `folders.id` no longer resolves the id. -/
theorem deleteFolder_canonical_id (db : Store) (userId : ObjectId)
    (folderId : String) (w : Wishlist)
    (hw : findOne db userId = some w) (hv : validate w = true)
    (hc : ∀ c, castObjectId folderId = some c → toHexString c = folderId) :
    ∃ db1 w1, deleteFolder db userId folderId = (db1, .json w1) ∧
      findOne db1 userId = some w1 ∧
      w1.folders = w.folders.filter (fun f => toHexString f._id != folderId) ∧
      DocumentArray.id w1.folders folderId = none := by
  obtain ⟨dpre, dpost, hdb, hdpre⟩ := findOne_split hw
  have hu := findOne_userId hw
  obtain ⟨wu, wf⟩ := w
  simp only at hu
  subst hu
  have hv1 : validate ⟨wu, wf.filter (fun f => toHexString f._id != folderId)⟩
      = true := by
    simp only [validate, List.all_eq_true] at hv ⊢
    exact fun f hf => hv f (List.mem_filter.mp hf).1
  refine ⟨dpre ++ ⟨wu, wf.filter (fun f => toHexString f._id != folderId)⟩ :: dpost,
    ⟨wu, wf.filter (fun f => toHexString f._id != folderId)⟩, ?_,
    findOne_of_split hdpre rfl, rfl, ?_⟩
  · simp only [deleteFolder, ensureWishlist_of_some hw]
    rw [save_of_valid hv1, hdb]
    simp only []
    rw [writeBack_split_user _ _ hdpre]
  · unfold DocumentArray.id
    split
    · rfl
    · next c hcast =>
      rw [List.find?_eq_none]
      intro f hf hfc
      have h1 := (List.mem_filter.mp hf).2
      have h2 : toHexString f._id = folderId := by
        rw [← hc c hcast]
        exact (by simpa using hfc : toHexString c = toHexString f._id).symm
      simp [h2] at h1

end Booking
